import Mathlib

/-!
Verification of the battery simulation core of `app.py`
(Thibiemario/Berekenmijnbatterij).

The simulation loop (app.py lines 54-115) is embedded as pure functions
over `ℚ`.  Python floats are modelled as exact rationals; the literal
`1e-9` epsilon guard and the `1e-6` tolerance appear as the rationals
`1/10^9` and `1/10^6`.  The per-quarter-hour loop body becomes `stap`, the
fold over the bucket list becomes `simulatie`, and the aggregations
(`besparing`, `maand_winst`, `pct_vol`, `pct_leeg`) are translated from
the corresponding pandas expressions.  Dutch identifiers are kept from the
source.
-/

/-- The sidebar settings of app.py (lines 22-31).  The Streamlit widgets
constrain the ranges (capacity ∈ [1,100], power ∈ [0.1,20], efficiencies
∈ [0.70,1], soc_min_pct ∈ [0,50], soc_max_pct ∈ [50,100], reaction times
∈ [0,60]); theorems take the range facts they need as hypotheses. -/
structure Instellingen where
  batterij_capaciteit : ℚ
  max_vermogen_kW : ℚ
  eff_laden : ℚ
  eff_ontladen : ℚ
  soc_min_pct : ℚ
  soc_max_pct : ℚ
  reactietijd_laden : ℚ
  reactietijd_ontladen : ℚ
  prijs_import : ℚ
  prijs_export : ℚ
deriving DecidableEq

/-- `kwartier_uur = 0.25` (app.py line 55). -/
def kwartier_uur : ℚ := 1/4

/-- `max_energie_per_kwartier = max_vermogen_kW * kwartier_uur` (line 56). -/
def max_energie_per_kwartier (c : Instellingen) : ℚ :=
  c.max_vermogen_kW * kwartier_uur

/-- `soc_min = soc_min_pct / 100 * batterij_capaciteit` (line 57). -/
def soc_min (c : Instellingen) : ℚ :=
  c.soc_min_pct / 100 * c.batterij_capaciteit

/-- `soc_max = soc_max_pct / 100 * batterij_capaciteit` (line 58). -/
def soc_max (c : Instellingen) : ℚ :=
  c.soc_max_pct / 100 * c.batterij_capaciteit

/-- `vertraging_laden = max(0, min(1, 1 - reactietijd_laden / 900))` (line 59). -/
def vertraging_laden (c : Instellingen) : ℚ :=
  max 0 (min 1 (1 - c.reactietijd_laden / 900))

/-- `vertraging_ontladen = max(0, min(1, 1 - reactietijd_ontladen / 900))` (line 60). -/
def vertraging_ontladen (c : Instellingen) : ℚ :=
  max 0 (min 1 (1 - c.reactietijd_ontladen / 900))

/-- One row of `df_kwartier` (line 51): a 15-minute bucket with its
summed import (`afname`) and export (`injectie`).  `maand` stands for the
calendar month of the bucket's `datetime`, used only as a grouping key
(line 141). -/
structure Kwartier where
  maand : ℕ
  afname : ℚ
  injectie : ℚ
deriving DecidableEq

/-- One row appended to `resultaten` (lines 90-99), extended with the
loop variable `potentieel_ontladen` (line 81) which the rate-limit claim
talks about.  `batterij_niveau` is the state of charge after the step. -/
structure Stap where
  maand : ℕ
  afname : ℚ
  injectie : ℚ
  opladen : ℚ
  potentieel_ontladen : ℚ
  ontladen : ℚ
  van_net : ℚ
  naar_net : ℚ
  batterij_niveau : ℚ
deriving DecidableEq

/-- The body of the simulation loop (app.py lines 67-99) for one bucket,
threading the state of charge `niveau` explicitly.  Mirrors the source
statement by statement: charge (lines 74-78), then discharge against the
post-charge level (lines 81-86), both divisions guarded by `+ 1e-9`. -/
def stap (c : Instellingen) (niveau : ℚ) (k : Kwartier) : Stap :=
  let potentieel_opladen := k.injectie * c.eff_laden * vertraging_laden c
  let effectief_opladen :=
    min potentieel_opladen
      (min (max_energie_per_kwartier c) (soc_max c - niveau))
  let niveau1 := niveau + effectief_opladen
  let naar_net :=
    max (k.injectie -
      effectief_opladen / (c.eff_laden * vertraging_laden c + 1/1000000000)) 0
  let potentieel_ontladen :=
    min (k.afname / (c.eff_ontladen * vertraging_ontladen c + 1/1000000000))
      (min (max_energie_per_kwartier c) (niveau1 - soc_min c))
  let effectief_ontladen :=
    potentieel_ontladen * c.eff_ontladen * vertraging_ontladen c
  let niveau2 := niveau1 - potentieel_ontladen
  let van_net := max (k.afname - effectief_ontladen) 0
  { maand := k.maand
    afname := k.afname
    injectie := k.injectie
    opladen := effectief_opladen
    potentieel_ontladen := potentieel_ontladen
    ontladen := effectief_ontladen
    van_net := van_net
    naar_net := naar_net
    batterij_niveau := niveau2 }

/-- The simulation loop (line 67): fold `stap` over the ordered bucket
list, emitting one `Stap` per bucket. -/
def simulatie (c : Instellingen) : ℚ → List Kwartier → List Stap
  | _, [] => []
  | niveau, k :: ks =>
    let s := stap c niveau k
    s :: simulatie c s.batterij_niveau ks

/-- A full run: `batterij_niveau` starts at `batterij_capaciteit / 2`
(line 54). -/
def run (c : Instellingen) (ks : List Kwartier) : List Stap :=
  simulatie c (c.batterij_capaciteit / 2) ks

/-- `res["is_vol"]` (line 104): full when the level is within `1e-6` of
`soc_max`. -/
def is_vol (c : Instellingen) (s : Stap) : Bool :=
  soc_max c - 1/1000000 ≤ s.batterij_niveau

/-- `res["is_leeg"]` (line 105): empty when the level is within `1e-6` of
`soc_min`. -/
def is_leeg (c : Instellingen) (s : Stap) : Bool :=
  s.batterij_niveau ≤ soc_min c + 1/1000000

/-- `tijd_vol_uren = res["is_vol"].sum() * kwartier_uur` (line 107). -/
def tijd_vol_uren (c : Instellingen) (res : List Stap) : ℚ :=
  (res.countP (is_vol c)) * kwartier_uur

/-- `tijd_leeg_uren = res["is_leeg"].sum() * kwartier_uur` (line 108). -/
def tijd_leeg_uren (c : Instellingen) (res : List Stap) : ℚ :=
  (res.countP (is_leeg c)) * kwartier_uur

/-- `tijd_totaal_uren = len(res) * kwartier_uur` (line 109). -/
def tijd_totaal_uren (res : List Stap) : ℚ :=
  res.length * kwartier_uur

/-- `pct_vol = 100 * tijd_vol_uren / tijd_totaal_uren` (line 110).  On an
empty trace the Python expression is `0.0 / 0.0`, a NaN (and line 104
already raises a KeyError on the column-less empty frame); that undefined
outcome is modelled as `none`. -/
def pct_vol (c : Instellingen) (res : List Stap) : Option ℚ :=
  if res.length = 0 then none
  else some (100 * tijd_vol_uren c res / tijd_totaal_uren res)

/-- `pct_leeg = 100 * tijd_leeg_uren / tijd_totaal_uren` (line 111), with
the same undefined empty-trace case as `pct_vol`. -/
def pct_leeg (c : Instellingen) (res : List Stap) : Option ℚ :=
  if res.length = 0 then none
  else some (100 * tijd_leeg_uren c res / tijd_totaal_uren res)

/-- `besparing` (lines 114-115): the running totals
`energie_zonder_batterij_van_net`, `energie_van_net`, `energie_naar_net`,
`energie_zonder_batterij_naar_net` are the sums of the per-row `afname`,
`van_net`, `naar_net`, `injectie` over the trace, so the summary formula
is expressed directly over those sums. -/
def besparing (c : Instellingen) (res : List Stap) : ℚ :=
  ((res.map (·.afname)).sum - (res.map (·.van_net)).sum) * c.prijs_import
  + ((res.map (·.naar_net)).sum - (res.map (·.injectie)).sum) * c.prijs_export

/-- The list of distinct months appearing in the trace, as produced by the
`groupby("maand")` keys (line 141-145). -/
def maanden (res : List Stap) : List ℕ :=
  (res.map (·.maand)).dedup

/-- `maand_winst` for one month (lines 147-148):
`(maand_zonder_van_net - maand_energie_van_net) * prijs_import +
 (maand_energie_naar_net - maand_zonder_naar_net) * prijs_export`, where
each term is the group sum over the rows of that month — i.e. the
`besparing` formula applied to the month's rows (the baseline groupby over
`df_kwartier` sums the same `afname`/`injectie` values that the trace rows
copy). -/
def maand_winst (c : Instellingen) (res : List Stap) (m : ℕ) : ℚ :=
  besparing c (res.filter (fun s => s.maand == m))

/-- A raw CSV row after the column normalisation of lines 45-50: whether
the `type` column contains "afname" resp. "injectie", and the `vermogen`
value after `pd.to_numeric(..., errors="coerce")` — `none` models the NaN
produced for a malformed (non-numeric) value. -/
structure RuwRij where
  maand : ℕ
  heeftAfname : Bool
  heeftInjectie : Bool
  vermogen : Option ℚ
deriving DecidableEq

/-- `df["afname"] = df["type"].str.contains("afname") * df["vermogen"]`
(line 49): a boolean times NaN is NaN (`none`); otherwise 0 or the value. -/
def rijAfname (r : RuwRij) : Option ℚ :=
  match r.vermogen with
  | none => none
  | some v => some ((if r.heeftAfname then 1 else 0) * v)

/-- `df["injectie"] = df["type"].str.contains("injectie") * df["vermogen"]`
(line 50). -/
def rijInjectie (r : RuwRij) : Option ℚ :=
  match r.vermogen with
  | none => none
  | some v => some ((if r.heeftInjectie then 1 else 0) * v)

/-- A pandas groupby-`sum()` with its default `skipna=True`: NaN entries
are skipped, i.e. contribute 0. -/
def somSkipNaN (l : List (Option ℚ)) : ℚ :=
  (l.filterMap id).sum

/-- One row of `df_kwartier` (line 51) built from the raw rows sharing one
timestamp: the NaN-skipping group sums of `afname` and `injectie`. -/
def kwartierVanRijen (m : ℕ) (rijen : List RuwRij) : Kwartier :=
  { maand := m
    afname := somSkipNaN (rijen.map rijAfname)
    injectie := somSkipNaN (rijen.map rijInjectie) }

/-- The default configuration of the sidebar (capacity 5 kWh, inverter
2.5 kW, both efficiencies 95 %, SoC window 10-90 %, zero reaction times as
in the spec's concrete scenario, prices 0.30/0.07 €/kWh). -/
def cfg0 : Instellingen :=
  { batterij_capaciteit := 5
    max_vermogen_kW := 5/2
    eff_laden := 19/20
    eff_ontladen := 19/20
    soc_min_pct := 10
    soc_max_pct := 90
    reactietijd_laden := 0
    reactietijd_ontladen := 0
    prijs_import := 30/100
    prijs_export := 7/100 }

/-- A configuration whose efficiency × delay-factor products are exactly
zero: both efficiencies 0, zero reaction times. -/
def cfgNul : Instellingen :=
  { batterij_capaciteit := 5
    max_vermogen_kW := 5/2
    eff_laden := 0
    eff_ontladen := 0
    soc_min_pct := 10
    soc_max_pct := 90
    reactietijd_laden := 0
    reactietijd_ontladen := 0
    prijs_import := 30/100
    prijs_export := 7/100 }

/-- The default configuration with a (hypothetical) zero-capacity battery:
`soc_min = soc_max = 0` and the initial level is 0. -/
def cfgNulCap : Instellingen :=
  { cfg0 with batterij_capaciteit := 0 }

theorem vertraging_laden_nonneg (c : Instellingen) : 0 ≤ vertraging_laden c :=
  le_max_left 0 _

theorem vertraging_ontladen_nonneg (c : Instellingen) :
    0 ≤ vertraging_ontladen c :=
  le_max_left 0 _

theorem stap_maand (c : Instellingen) (niveau : ℚ) (k : Kwartier) :
    (stap c niveau k).maand = k.maand := rfl

theorem stap_afname (c : Instellingen) (niveau : ℚ) (k : Kwartier) :
    (stap c niveau k).afname = k.afname := rfl

theorem stap_injectie (c : Instellingen) (niveau : ℚ) (k : Kwartier) :
    (stap c niveau k).injectie = k.injectie := rfl

theorem stap_opladen (c : Instellingen) (niveau : ℚ) (k : Kwartier) :
    (stap c niveau k).opladen =
      min (k.injectie * c.eff_laden * vertraging_laden c)
        (min (max_energie_per_kwartier c) (soc_max c - niveau)) := rfl

/-- The discharge bound (line 83) is computed on the post-charge level
`niveau + opladen`. -/
theorem stap_potentieel_ontladen (c : Instellingen) (niveau : ℚ) (k : Kwartier) :
    (stap c niveau k).potentieel_ontladen =
      min (k.afname / (c.eff_ontladen * vertraging_ontladen c + 1/1000000000))
        (min (max_energie_per_kwartier c)
          ((niveau + (stap c niveau k).opladen) - soc_min c)) := rfl

theorem stap_ontladen (c : Instellingen) (niveau : ℚ) (k : Kwartier) :
    (stap c niveau k).ontladen =
      (stap c niveau k).potentieel_ontladen * c.eff_ontladen *
        vertraging_ontladen c := rfl

theorem stap_van_net (c : Instellingen) (niveau : ℚ) (k : Kwartier) :
    (stap c niveau k).van_net =
      max (k.afname - (stap c niveau k).ontladen) 0 := rfl

theorem stap_naar_net (c : Instellingen) (niveau : ℚ) (k : Kwartier) :
    (stap c niveau k).naar_net =
      max (k.injectie - (stap c niveau k).opladen /
        (c.eff_laden * vertraging_laden c + 1/1000000000)) 0 := rfl

theorem stap_batterij_niveau (c : Instellingen) (niveau : ℚ) (k : Kwartier) :
    (stap c niveau k).batterij_niveau =
      niveau + (stap c niveau k).opladen -
        (stap c niveau k).potentieel_ontladen := rfl

theorem max_energie_nonneg (c : Instellingen) (hv : 0 ≤ c.max_vermogen_kW) :
    0 ≤ max_energie_per_kwartier c := by
  unfold max_energie_per_kwartier kwartier_uur
  positivity

/-- All per-step facts needed by the invariant claims, for one step taken
from a level inside the configured SoC window, on a bucket with
non-negative energies. -/
theorem stap_eigenschappen (c : Instellingen) (niveau : ℚ) (k : Kwartier)
    (he : 0 ≤ c.eff_laden) (heo : 0 ≤ c.eff_ontladen)
    (hv : 0 ≤ c.max_vermogen_kW)
    (ha : 0 ≤ k.afname) (hi : 0 ≤ k.injectie)
    (hlo : soc_min c ≤ niveau) (hhi : niveau ≤ soc_max c) :
    0 ≤ (stap c niveau k).opladen ∧
    0 ≤ (stap c niveau k).potentieel_ontladen ∧
    0 ≤ (stap c niveau k).ontladen ∧
    0 ≤ (stap c niveau k).van_net ∧ (stap c niveau k).van_net ≤ k.afname ∧
    0 ≤ (stap c niveau k).naar_net ∧ (stap c niveau k).naar_net ≤ k.injectie ∧
    soc_min c ≤ (stap c niveau k).batterij_niveau ∧
    (stap c niveau k).batterij_niveau ≤ soc_max c := by
  have hvl : 0 ≤ vertraging_laden c := vertraging_laden_nonneg c
  have hvo : 0 ≤ vertraging_ontladen c := vertraging_ontladen_nonneg c
  have hmE : 0 ≤ max_energie_per_kwartier c := max_energie_nonneg c hv
  have hdl : (0:ℚ) < c.eff_laden * vertraging_laden c + 1/1000000000 := by
    have : 0 ≤ c.eff_laden * vertraging_laden c := mul_nonneg he hvl
    linarith
  have hdo : (0:ℚ) < c.eff_ontladen * vertraging_ontladen c + 1/1000000000 := by
    have : 0 ≤ c.eff_ontladen * vertraging_ontladen c := mul_nonneg heo hvo
    linarith
  have hop : 0 ≤ (stap c niveau k).opladen := by
    rw [stap_opladen]
    exact le_min (mul_nonneg (mul_nonneg hi he) hvl)
      (le_min hmE (by linarith))
  have hop_head : (stap c niveau k).opladen ≤ soc_max c - niveau := by
    rw [stap_opladen]
    exact (min_le_right _ _).trans (min_le_right _ _)
  have hn1lo : soc_min c ≤ niveau + (stap c niveau k).opladen := by linarith
  have hn1hi : niveau + (stap c niveau k).opladen ≤ soc_max c := by linarith
  have hpo : 0 ≤ (stap c niveau k).potentieel_ontladen := by
    rw [stap_potentieel_ontladen]
    exact le_min (div_nonneg ha hdo.le) (le_min hmE (by linarith))
  have hpo_head :
      (stap c niveau k).potentieel_ontladen ≤
        niveau + (stap c niveau k).opladen - soc_min c := by
    rw [stap_potentieel_ontladen]
    exact (min_le_right _ _).trans (min_le_right _ _)
  have hont : 0 ≤ (stap c niveau k).ontladen := by
    rw [stap_ontladen]
    exact mul_nonneg (mul_nonneg hpo heo) hvo
  refine ⟨hop, hpo, hont, ?_, ?_, ?_, ?_, ?_, ?_⟩
  · rw [stap_van_net]; exact le_max_right _ _
  · rw [stap_van_net]
    exact max_le (by linarith) ha
  · rw [stap_naar_net]; exact le_max_right _ _
  · rw [stap_naar_net]
    have : 0 ≤ (stap c niveau k).opladen /
        (c.eff_laden * vertraging_laden c + 1/1000000000) :=
      div_nonneg hop hdl.le
    exact max_le (by linarith) hi
  · rw [stap_batterij_niveau]; linarith
  · rw [stap_batterij_niveau]; linarith

/-- Every emitted trace row of `simulatie` satisfies the per-step facts,
provided the starting level is inside the SoC window and all buckets have
non-negative energies. -/
theorem simulatie_eigenschappen (c : Instellingen)
    (he : 0 ≤ c.eff_laden) (heo : 0 ≤ c.eff_ontladen)
    (hv : 0 ≤ c.max_vermogen_kW) :
    ∀ (ks : List Kwartier) (niveau : ℚ),
      (∀ k ∈ ks, 0 ≤ k.afname ∧ 0 ≤ k.injectie) →
      soc_min c ≤ niveau → niveau ≤ soc_max c →
      ∀ s ∈ simulatie c niveau ks,
        0 ≤ s.opladen ∧ 0 ≤ s.potentieel_ontladen ∧ 0 ≤ s.ontladen ∧
        0 ≤ s.van_net ∧ s.van_net ≤ s.afname ∧
        0 ≤ s.naar_net ∧ s.naar_net ≤ s.injectie ∧
        soc_min c ≤ s.batterij_niveau ∧ s.batterij_niveau ≤ soc_max c := by
  intro ks
  induction ks with
  | nil => intro niveau _ _ _ s hs; simp [simulatie] at hs
  | cons k ks ih =>
    intro niveau hks hlo hhi s hs
    have hk := hks k (List.mem_cons_self k ks)
    have hstep := stap_eigenschappen c niveau k he heo hv hk.1 hk.2 hlo hhi
    simp only [simulatie, List.mem_cons] at hs
    rcases hs with rfl | hs
    · refine ⟨hstep.1, hstep.2.1, hstep.2.2.1, hstep.2.2.2.1, ?_,
        hstep.2.2.2.2.2.1, ?_, hstep.2.2.2.2.2.2.2⟩
      · rw [stap_afname]; exact hstep.2.2.2.2.1
      · rw [stap_injectie]; exact hstep.2.2.2.2.2.2.1
    · exact ih (stap c niveau k).batterij_niveau
        (fun k hk => hks k (List.mem_cons_of_mem _ hk))
        hstep.2.2.2.2.2.2.2.1 hstep.2.2.2.2.2.2.2.2 s hs

/-- With the slider ranges (`capacity ≥ 0`, `soc_min_pct ≤ 50`), the
initial level `capacity / 2` is at least `soc_min`. -/
theorem soc_min_le_start (c : Instellingen) (hcap : 0 ≤ c.batterij_capaciteit)
    (hminpct : c.soc_min_pct ≤ 50) :
    soc_min c ≤ c.batterij_capaciteit / 2 := by
  have h := mul_le_mul_of_nonneg_right hminpct hcap
  unfold soc_min
  linarith

/-- With the slider ranges (`capacity ≥ 0`, `soc_max_pct ≥ 50`), the
initial level `capacity / 2` is at most `soc_max`. -/
theorem start_le_soc_max (c : Instellingen) (hcap : 0 ≤ c.batterij_capaciteit)
    (hmaxpct : 50 ≤ c.soc_max_pct) :
    c.batterij_capaciteit / 2 ≤ soc_max c := by
  have h := mul_le_mul_of_nonneg_right hmaxpct hcap
  unfold soc_max
  linarith

/-- Every row of a trace is the step result for some level and bucket. -/
theorem simulatie_vorm (c : Instellingen) :
    ∀ (ks : List Kwartier) (niveau : ℚ), ∀ s ∈ simulatie c niveau ks,
      ∃ n k, s = stap c n k := by
  intro ks
  induction ks with
  | nil => intro niveau s hs; simp [simulatie] at hs
  | cons k ks ih =>
    intro niveau s hs
    simp only [simulatie, List.mem_cons] at hs
    rcases hs with rfl | hs
    · exact ⟨niveau, k, rfl⟩
    · exact ih _ s hs

/-- C1: SoC bounds invariant.  For a valid run (slider ranges on the
configuration, non-negative bucket energies) every emitted
`batterij_niveau` lies between `soc_min − ε` and `soc_max + ε` with
`ε = 1e-6`; the proof in fact establishes the exact bounds
`soc_min ≤ soc_kWh ≤ soc_max`, starting from the initial level
`batterij_capaciteit / 2`. -/
theorem soc_bounds_invariant (c : Instellingen) (ks : List Kwartier)
    (he : 0 ≤ c.eff_laden) (heo : 0 ≤ c.eff_ontladen)
    (hv : 0 ≤ c.max_vermogen_kW) (hcap : 0 ≤ c.batterij_capaciteit)
    (hminpct : c.soc_min_pct ≤ 50) (hmaxpct : 50 ≤ c.soc_max_pct)
    (hks : ∀ k ∈ ks, 0 ≤ k.afname ∧ 0 ≤ k.injectie) :
    ∀ s ∈ run c ks,
      soc_min c - 1/1000000 ≤ s.batterij_niveau ∧
      s.batterij_niveau ≤ soc_max c + 1/1000000 := by
  intro s hs
  have h := simulatie_eigenschappen c he heo hv ks (c.batterij_capaciteit / 2)
    hks (soc_min_le_start c hcap hminpct) (start_le_soc_max c hcap hmaxpct) s hs
  constructor
  · linarith [h.2.2.2.2.2.2.2.1]
  · linarith [h.2.2.2.2.2.2.2.2]

theorem soc_bounds_invariant_witness :
    soc_min cfg0 - 1/1000000 ≤
      (stap cfg0 (cfg0.batterij_capaciteit / 2) ⟨0, 1, 1⟩).batterij_niveau ∧
    (stap cfg0 (cfg0.batterij_capaciteit / 2) ⟨0, 1, 1⟩).batterij_niveau ≤
      soc_max cfg0 + 1/1000000 :=
  soc_bounds_invariant cfg0 [⟨0, 1, 1⟩]
    (by norm_num [cfg0]) (by norm_num [cfg0]) (by norm_num [cfg0])
    (by norm_num [cfg0]) (by norm_num [cfg0]) (by norm_num [cfg0])
    (by
      intro k hk
      simp only [List.mem_singleton] at hk
      subst hk
      exact ⟨by norm_num, by norm_num⟩)
    _ (by simp [run, simulatie])

/-- C4: concrete scenario.  With the default configuration at zero
reaction times, a bucket `afname = 0, injectie = 1` from level 2.5 kWh
gives `effectief_opladen = min(0.95, 0.625, 2) = 0.625`, post-step level
3.125 kWh, and `naar_net` within `1e-8` of `1 − 0.625/0.95` and within
`1e-3` of 0.342 (the exact value is `1 − 0.625/(0.95 + 1e-9)` because of
the source's epsilon-guarded division). -/
theorem concreet_scenario :
    (stap cfg0 (5/2) ⟨0, 0, 1⟩).opladen = min (19/20) (min (5/8) 2) ∧
    (stap cfg0 (5/2) ⟨0, 0, 1⟩).opladen = 5/8 ∧
    (stap cfg0 (5/2) ⟨0, 0, 1⟩).batterij_niveau = 25/8 ∧
    |(stap cfg0 (5/2) ⟨0, 0, 1⟩).naar_net - (1 - (5/8)/(19/20))| < 1/100000000 ∧
    |(stap cfg0 (5/2) ⟨0, 0, 1⟩).naar_net - 342/1000| < 1/1000 := by
  norm_num [stap, cfg0, max_energie_per_kwartier, soc_max, soc_min,
    vertraging_laden, vertraging_ontladen, kwartier_uur, min_def, max_def,
    abs_lt]

/-- C8: charge-first ordering.  In every step the discharge bound is
`(niveau + opladen) − soc_min`, i.e. computed on the post-charge level,
and the post-step level is the post-charge level minus the discharge;
moreover a bucket with both `afname` and `injectie` nonzero can both
charge and discharge the battery in the same step (shown on a concrete
bucket with `afname = 1/2, injectie = 1`). -/
theorem laden_eerst :
    (∀ (c : Instellingen) (niveau : ℚ) (k : Kwartier),
      (stap c niveau k).potentieel_ontladen =
        min (k.afname / (c.eff_ontladen * vertraging_ontladen c + 1/1000000000))
          (min (max_energie_per_kwartier c)
            ((niveau + (stap c niveau k).opladen) - soc_min c)) ∧
      (stap c niveau k).batterij_niveau =
        (niveau + (stap c niveau k).opladen) -
          (stap c niveau k).potentieel_ontladen) ∧
    0 < (stap cfg0 (5/2) ⟨0, 1/2, 1⟩).opladen ∧
    0 < (stap cfg0 (5/2) ⟨0, 1/2, 1⟩).ontladen := by
  refine ⟨fun c niveau k =>
    ⟨stap_potentieel_ontladen c niveau k, stap_batterij_niveau c niveau k⟩,
    ?_, ?_⟩ <;>
  norm_num [stap, cfg0, max_energie_per_kwartier, soc_max, soc_min,
    vertraging_laden, vertraging_ontladen, kwartier_uur, min_def, max_def]

/-- C2 counterexample: with both efficiencies 0 (so
efficiency × delay-factor is exactly 0), from level 2.5 kWh on a bucket
with `afname = 1`, the code's epsilon-guarded division gives
`potentieel_ontladen = min(1/1e-9, 0.625, 2) = 0.625 ≠ 0` and the level
drops to 1.875 kWh — contradicting the claimed explicit zero-branch under
which `potential_discharge = 0` and the SoC would not change. -/
theorem nul_noemer_counterexample :
    (stap cfgNul (5/2) ⟨0, 1, 1⟩).potentieel_ontladen ≠ 0 ∧
    (stap cfgNul (5/2) ⟨0, 1, 1⟩).potentieel_ontladen = 5/8 ∧
    (stap cfgNul (5/2) ⟨0, 1, 1⟩).batterij_niveau ≠ 5/2 := by
  norm_num [stap, cfgNul, max_energie_per_kwartier, soc_max, soc_min,
    vertraging_laden, vertraging_ontladen, kwartier_uur, min_def, max_def]

/-- C2 amended: the code guards the divisions with `+ 1e-9` instead of an
explicit branch.  When both efficiency × delay-factor products are exactly
0 the results are still defined (no division by zero is possible): no
charging occurs (`opladen = 0`, `naar_net = injectie`) and no energy is
delivered by discharging (`ontladen = 0`, `van_net = afname`), but
`potentieel_ontladen = min(afname · 10⁹, max_energie_per_kwartier,
niveau − soc_min)` is in general nonzero and is subtracted from the
level. -/
theorem nul_noemer_amended (c : Instellingen) (niveau : ℚ) (k : Kwartier)
    (hdl : c.eff_laden * vertraging_laden c = 0)
    (hdo : c.eff_ontladen * vertraging_ontladen c = 0)
    (ha : 0 ≤ k.afname) (hi : 0 ≤ k.injectie)
    (hv : 0 ≤ c.max_vermogen_kW) (hhi : niveau ≤ soc_max c) :
    (stap c niveau k).opladen = 0 ∧
    (stap c niveau k).naar_net = k.injectie ∧
    (stap c niveau k).ontladen = 0 ∧
    (stap c niveau k).van_net = k.afname ∧
    (stap c niveau k).potentieel_ontladen =
      min (k.afname * 1000000000)
        (min (max_energie_per_kwartier c) (niveau - soc_min c)) ∧
    (stap c niveau k).batterij_niveau =
      niveau - (stap c niveau k).potentieel_ontladen := by
  have hmE := max_energie_nonneg c hv
  have hop : (stap c niveau k).opladen = 0 := by
    rw [stap_opladen]
    have hpot : k.injectie * c.eff_laden * vertraging_laden c = 0 := by
      rw [mul_assoc, hdl, mul_zero]
    rw [hpot]
    exact min_eq_left (le_min hmE (by linarith))
  have hpo : (stap c niveau k).potentieel_ontladen =
      min (k.afname * 1000000000)
        (min (max_energie_per_kwartier c) (niveau - soc_min c)) := by
    rw [stap_potentieel_ontladen, hop, hdo, add_zero, zero_add, div_eq_mul_inv]
    norm_num
  have hont : (stap c niveau k).ontladen = 0 := by
    rw [stap_ontladen, mul_assoc, hdo, mul_zero]
  refine ⟨hop, ?_, hont, ?_, hpo, ?_⟩
  · rw [stap_naar_net, hop, zero_div, sub_zero]
    exact max_eq_left hi
  · rw [stap_van_net, hont, sub_zero]
    exact max_eq_left ha
  · rw [stap_batterij_niveau, hop, add_zero]

theorem nul_noemer_amended_witness :
    (stap cfgNul (5/2) ⟨0, 1, 1⟩).opladen = 0 ∧
    (stap cfgNul (5/2) ⟨0, 1, 1⟩).naar_net = (⟨0, 1, 1⟩ : Kwartier).injectie ∧
    (stap cfgNul (5/2) ⟨0, 1, 1⟩).ontladen = 0 ∧
    (stap cfgNul (5/2) ⟨0, 1, 1⟩).van_net = (⟨0, 1, 1⟩ : Kwartier).afname ∧
    (stap cfgNul (5/2) ⟨0, 1, 1⟩).potentieel_ontladen =
      min ((⟨0, 1, 1⟩ : Kwartier).afname * 1000000000)
        (min (max_energie_per_kwartier cfgNul) (5/2 - soc_min cfgNul)) ∧
    (stap cfgNul (5/2) ⟨0, 1, 1⟩).batterij_niveau =
      5/2 - (stap cfgNul (5/2) ⟨0, 1, 1⟩).potentieel_ontladen :=
  nul_noemer_amended cfgNul (5/2) ⟨0, 1, 1⟩
    (by norm_num [cfgNul, vertraging_laden])
    (by norm_num [cfgNul, vertraging_ontladen])
    (by norm_num) (by norm_num) (by norm_num [cfgNul])
    (by norm_num [cfgNul, soc_max])

/-- With a zero SoC window (`soc_min = soc_max = 0`) a step from level 0
changes nothing: no charge, no discharge, residual flows equal the bucket
values, level stays 0. -/
theorem stap_nul_venster (c : Instellingen) (k : Kwartier)
    (hmin : soc_min c = 0) (hmax : soc_max c = 0)
    (he : 0 ≤ c.eff_laden) (heo : 0 ≤ c.eff_ontladen)
    (hv : 0 ≤ c.max_vermogen_kW)
    (ha : 0 ≤ k.afname) (hi : 0 ≤ k.injectie) :
    (stap c 0 k).opladen = 0 ∧ (stap c 0 k).potentieel_ontladen = 0 ∧
    (stap c 0 k).ontladen = 0 ∧ (stap c 0 k).van_net = k.afname ∧
    (stap c 0 k).naar_net = k.injectie ∧
    (stap c 0 k).batterij_niveau = 0 := by
  have hvl := vertraging_laden_nonneg c
  have hvo := vertraging_ontladen_nonneg c
  have hmE := max_energie_nonneg c hv
  have hdo : (0:ℚ) ≤ c.eff_ontladen * vertraging_ontladen c + 1/1000000000 := by
    have := mul_nonneg heo hvo
    linarith
  have hop : (stap c 0 k).opladen = 0 := by
    rw [stap_opladen, hmax, sub_zero]
    rw [min_eq_right hmE]
    exact min_eq_right (mul_nonneg (mul_nonneg hi he) hvl)
  have hpo : (stap c 0 k).potentieel_ontladen = 0 := by
    rw [stap_potentieel_ontladen, hop, hmin, add_zero, sub_zero]
    rw [min_eq_right hmE]
    exact min_eq_right (div_nonneg ha hdo)
  have hont : (stap c 0 k).ontladen = 0 := by
    rw [stap_ontladen, hpo, zero_mul, zero_mul]
  refine ⟨hop, hpo, hont, ?_, ?_, ?_⟩
  · rw [stap_van_net, hont, sub_zero]
    exact max_eq_left ha
  · rw [stap_naar_net, hop, zero_div, sub_zero]
    exact max_eq_left hi
  · rw [stap_batterij_niveau, hop, hpo, add_zero, sub_zero]

/-- C6: no-battery equivalence.  With `batterij_capaciteit = 0` (so
`soc_min = soc_max = 0` and the initial level is 0) every trace row of a
run on non-negative buckets has grid flows equal to the baseline meter
values and zero charged/discharged energy. -/
theorem geen_batterij_equivalentie (c : Instellingen) (ks : List Kwartier)
    (hcap : c.batterij_capaciteit = 0)
    (he : 0 ≤ c.eff_laden) (heo : 0 ≤ c.eff_ontladen)
    (hv : 0 ≤ c.max_vermogen_kW)
    (hks : ∀ k ∈ ks, 0 ≤ k.afname ∧ 0 ≤ k.injectie) :
    ∀ s ∈ run c ks,
      s.van_net = s.afname ∧ s.naar_net = s.injectie ∧
      s.opladen = 0 ∧ s.ontladen = 0 := by
  have hmin : soc_min c = 0 := by unfold soc_min; rw [hcap, mul_zero]
  have hmax : soc_max c = 0 := by unfold soc_max; rw [hcap, mul_zero]
  have hstart : c.batterij_capaciteit / 2 = 0 := by rw [hcap]; norm_num
  unfold run
  rw [hstart]
  clear hstart hcap
  induction ks with
  | nil => intro s hs; simp [simulatie] at hs
  | cons k ks ih =>
    intro s hs
    have hk := hks k (List.mem_cons_self k ks)
    have hstep := stap_nul_venster c k hmin hmax he heo hv hk.1 hk.2
    simp only [simulatie, List.mem_cons] at hs
    rcases hs with rfl | hs
    · exact ⟨by rw [stap_afname]; exact hstep.2.2.2.1,
        by rw [stap_injectie]; exact hstep.2.2.2.2.1,
        hstep.1, hstep.2.2.1⟩
    · rw [hstep.2.2.2.2.2] at hs
      exact ih (fun k hk => hks k (List.mem_cons_of_mem _ hk)) s hs

theorem geen_batterij_equivalentie_witness :
    (stap cfgNulCap 0 ⟨0, 1, 1⟩).van_net = (stap cfgNulCap 0 ⟨0, 1, 1⟩).afname ∧
    (stap cfgNulCap 0 ⟨0, 1, 1⟩).naar_net =
      (stap cfgNulCap 0 ⟨0, 1, 1⟩).injectie ∧
    (stap cfgNulCap 0 ⟨0, 1, 1⟩).opladen = 0 ∧
    (stap cfgNulCap 0 ⟨0, 1, 1⟩).ontladen = 0 :=
  geen_batterij_equivalentie cfgNulCap [⟨0, 1, 1⟩]
    (by norm_num [cfgNulCap, cfg0]) (by norm_num [cfgNulCap, cfg0])
    (by norm_num [cfgNulCap, cfg0]) (by norm_num [cfgNulCap, cfg0])
    (by
      intro k hk
      simp only [List.mem_singleton] at hk
      subst hk
      exact ⟨by norm_num, by norm_num⟩)
    _ (by simp [run, simulatie, cfgNulCap, cfg0])

/-- C7: rate limits.  In every step of any run, `effectief_opladen` and
`potentieel_ontladen` are at most
`max_energie_per_kwartier = max_vermogen_kW · 0.25`, because both are
`min`-terms containing that bound (lines 75 and 81-83); this holds for
every configuration and bucket list. -/
theorem rate_limits (c : Instellingen) (ks : List Kwartier) :
    ∀ s ∈ run c ks,
      s.opladen ≤ max_energie_per_kwartier c ∧
      s.potentieel_ontladen ≤ max_energie_per_kwartier c := by
  intro s hs
  obtain ⟨n, k, rfl⟩ := simulatie_vorm c ks (c.batterij_capaciteit / 2) s hs
  constructor
  · rw [stap_opladen]
    exact (min_le_right _ _).trans (min_le_left _ _)
  · rw [stap_potentieel_ontladen]
    exact (min_le_right _ _).trans (min_le_left _ _)

theorem rate_limits_witness :
    (stap cfg0 (cfg0.batterij_capaciteit / 2) ⟨0, 1, 1⟩).opladen ≤
      max_energie_per_kwartier cfg0 ∧
    (stap cfg0 (cfg0.batterij_capaciteit / 2) ⟨0, 1, 1⟩).potentieel_ontladen ≤
      max_energie_per_kwartier cfg0 :=
  rate_limits cfg0 [⟨0, 1, 1⟩] _ (by simp [run, simulatie])

/-- C10: the battery never worsens per-bucket grid flows.  In a valid run
every residual flow is non-negative, `van_net` is at most the bucket's
`afname` and `naar_net` at most the bucket's `injectie` (the trace row
copies the bucket's values). -/
theorem grid_flows_bounded (c : Instellingen) (ks : List Kwartier)
    (he : 0 ≤ c.eff_laden) (heo : 0 ≤ c.eff_ontladen)
    (hv : 0 ≤ c.max_vermogen_kW) (hcap : 0 ≤ c.batterij_capaciteit)
    (hminpct : c.soc_min_pct ≤ 50) (hmaxpct : 50 ≤ c.soc_max_pct)
    (hks : ∀ k ∈ ks, 0 ≤ k.afname ∧ 0 ≤ k.injectie) :
    ∀ s ∈ run c ks,
      0 ≤ s.van_net ∧ s.van_net ≤ s.afname ∧
      0 ≤ s.naar_net ∧ s.naar_net ≤ s.injectie := by
  intro s hs
  have h := simulatie_eigenschappen c he heo hv ks (c.batterij_capaciteit / 2)
    hks (soc_min_le_start c hcap hminpct) (start_le_soc_max c hcap hmaxpct) s hs
  exact ⟨h.2.2.2.1, h.2.2.2.2.1, h.2.2.2.2.2.1, h.2.2.2.2.2.2.1⟩

theorem grid_flows_bounded_witness :
    0 ≤ (stap cfg0 (cfg0.batterij_capaciteit / 2) ⟨0, 1, 1⟩).van_net ∧
    (stap cfg0 (cfg0.batterij_capaciteit / 2) ⟨0, 1, 1⟩).van_net ≤
      (stap cfg0 (cfg0.batterij_capaciteit / 2) ⟨0, 1, 1⟩).afname ∧
    0 ≤ (stap cfg0 (cfg0.batterij_capaciteit / 2) ⟨0, 1, 1⟩).naar_net ∧
    (stap cfg0 (cfg0.batterij_capaciteit / 2) ⟨0, 1, 1⟩).naar_net ≤
      (stap cfg0 (cfg0.batterij_capaciteit / 2) ⟨0, 1, 1⟩).injectie :=
  grid_flows_bounded cfg0 [⟨0, 1, 1⟩]
    (by norm_num [cfg0]) (by norm_num [cfg0]) (by norm_num [cfg0])
    (by norm_num [cfg0]) (by norm_num [cfg0]) (by norm_num [cfg0])
    (by
      intro k hk
      simp only [List.mem_singleton] at hk
      subst hk
      exact ⟨by norm_num, by norm_num⟩)
    _ (by simp [run, simulatie])

/-- Splitting a mapped sum along a Boolean predicate. -/
theorem som_filter_split (f : Stap → ℚ) (p : Stap → Bool) (l : List Stap) :
    ((l.filter p).map f).sum + ((l.filter (fun s => !(p s))).map f).sum
      = (l.map f).sum := by
  induction l with
  | nil => simp
  | cons x l ih =>
    cases hx : p x <;> simp [List.filter_cons, hx] <;> linarith [ih]

/-- Removing the rows of month `m` does not change the rows of a
different month `m2`. -/
theorem filter_maand_ne (l : List Stap) (m m2 : ℕ) (hne : m2 ≠ m) :
    ((l.filter (fun s => !(s.maand == m))).filter (fun s => s.maand == m2))
      = l.filter (fun s => s.maand == m2) := by
  induction l with
  | nil => rfl
  | cons x l ih =>
    by_cases hx : x.maand = m2
    · have h1 : (x.maand == m2) = true := by simp [hx]
      have h2 : (x.maand == m) = false := by simp [hx, hne]
      simp [List.filter_cons, h1, h2, ih]
    · have h1 : (x.maand == m2) = false := by simp [hx]
      by_cases hx2 : x.maand = m <;>
        simp [List.filter_cons, h1, hx2, Ne.symm hne, ih]

/-- Summing the per-month group sums over a duplicate-free list of months
covering every row recovers the total sum. -/
theorem som_fibers (f : Stap → ℚ) :
    ∀ ks : List ℕ, ks.Nodup → ∀ res : List Stap,
      (∀ s ∈ res, s.maand ∈ ks) →
      (ks.map (fun m =>
          ((res.filter (fun s => s.maand == m)).map f).sum)).sum
        = (res.map f).sum := by
  intro ks
  induction ks with
  | nil =>
    intro _ res hall
    cases res with
    | nil => simp
    | cons s l =>
      exact absurd (hall s (List.mem_cons_self s l)) (List.not_mem_nil _)
  | cons m ks ih =>
    intro hnd res hall
    have hm_notin : m ∉ ks := (List.nodup_cons.mp hnd).1
    have hnd2 : ks.Nodup := (List.nodup_cons.mp hnd).2
    have hsplit := som_filter_split f (fun s => s.maand == m) res
    have htail :
        (ks.map (fun m2 =>
            ((res.filter (fun s => s.maand == m2)).map f).sum)).sum
          = (ks.map (fun m2 =>
            (((res.filter (fun s => !(s.maand == m))).filter
                (fun s => s.maand == m2)).map f).sum)).sum := by
      refine congrArg List.sum (List.map_congr_left ?_)
      intro m2 hm2
      have hne : m2 ≠ m := fun hEq => hm_notin (hEq ▸ hm2)
      rw [filter_maand_ne res m m2 hne]
    have hall2 : ∀ s ∈ res.filter (fun s => !(s.maand == m)),
        s.maand ∈ ks := by
      intro s hs
      rw [List.mem_filter] at hs
      have h1 := hall s hs.1
      have h2 : s.maand ≠ m := by simpa using hs.2
      rcases List.mem_cons.mp h1 with h | h
      · exact absurd h h2
      · exact h
    simp only [List.map_cons, List.sum_cons]
    rw [htail, ih hnd2 _ hall2]
    linarith [hsplit]

/-- Sums of the per-month savings formula distribute over its four group
sums. -/
theorem som_lin_combinatie (a b d e : ℕ → ℚ) (p q : ℚ) (l : List ℕ) :
    (l.map (fun m => (a m - b m) * p + (d m - e m) * q)).sum
      = ((l.map a).sum - (l.map b).sum) * p
        + ((l.map d).sum - (l.map e).sum) * q := by
  induction l with
  | nil => simp
  | cons x l ih =>
    simp only [List.map_cons, List.sum_cons, ih]
    ring

/-- C5: financial identity.  For every run, the total `besparing`
computed from the run-level totals equals the sum over the distinct
months of the per-month `maand_winst` computed by the same formula on the
per-month partition. -/
theorem financiele_identiteit (c : Instellingen) (ks : List Kwartier) :
    ((maanden (run c ks)).map (maand_winst c (run c ks))).sum
      = besparing c (run c ks) := by
  suffices h : ∀ res : List Stap,
      ((maanden res).map (maand_winst c res)).sum = besparing c res from
    h (run c ks)
  intro res
  have hfun : maand_winst c res = fun m =>
      besparing c (res.filter (fun s => s.maand == m)) := rfl
  rw [hfun]
  simp only [besparing, maanden]
  rw [som_lin_combinatie
    (fun m => ((res.filter (fun s => s.maand == m)).map (·.afname)).sum)
    (fun m => ((res.filter (fun s => s.maand == m)).map (·.van_net)).sum)
    (fun m => ((res.filter (fun s => s.maand == m)).map (·.naar_net)).sum)
    (fun m => ((res.filter (fun s => s.maand == m)).map (·.injectie)).sum)]
  have hnd := List.nodup_dedup (res.map (·.maand))
  have hall : ∀ s ∈ res, s.maand ∈ (res.map (·.maand)).dedup :=
    fun s hs => List.mem_dedup.mpr (List.mem_map_of_mem _ hs)
  rw [som_fibers (·.afname) _ hnd res hall,
    som_fibers (·.van_net) _ hnd res hall,
    som_fibers (·.naar_net) _ hnd res hall,
    som_fibers (·.injectie) _ hnd res hall]

/-- C9 counterexample: on the empty bucket sequence the trace is empty
and both dwell-time percentages are undefined (`0.0/0.0`, a NaN, modelled
as `none`) — they are not well-defined values in `[0,100]` as claimed. -/
theorem vol_leeg_pct_counterexample :
    ¬ ∃ p q : ℚ, pct_vol cfg0 (run cfg0 []) = some p ∧
      pct_leeg cfg0 (run cfg0 []) = some q := by
  simp [run, simulatie, pct_vol, pct_leeg]

/-- C9 amended: for every run with at least one bucket the full-time and
empty-time percentages are defined and lie in `[0,100]` (also when
`soc_min = soc_max`, for which no hypothesis is needed); on the empty
bucket sequence they are undefined. -/
theorem vol_leeg_pct_amended (c : Instellingen) (res : List Stap)
    (h : res ≠ []) :
    ∃ p q : ℚ, pct_vol c res = some p ∧ pct_leeg c res = some q ∧
      0 ≤ p ∧ p ≤ 100 ∧ 0 ≤ q ∧ q ≤ 100 := by
  have hn : res.length ≠ 0 := fun h0 => h (List.length_eq_zero.mp h0)
  have hnpos : (0:ℚ) < (res.length : ℚ) := by
    exact_mod_cast Nat.pos_of_ne_zero hn
  have key : ∀ cnt : ℕ, cnt ≤ res.length →
      0 ≤ 100 * ((cnt : ℚ) * kwartier_uur) / tijd_totaal_uren res ∧
      100 * ((cnt : ℚ) * kwartier_uur) / tijd_totaal_uren res ≤ 100 := by
    intro cnt hcnt
    unfold tijd_totaal_uren kwartier_uur
    have hc : (0:ℚ) ≤ (cnt : ℚ) := Nat.cast_nonneg cnt
    have hcl : (cnt : ℚ) ≤ (res.length : ℚ) := Nat.cast_le.mpr hcnt
    constructor
    · positivity
    · rw [div_le_iff₀ (by positivity)]
      linarith
  have h1 := key (res.countP (is_vol c)) (List.countP_le_length (is_vol c))
  have h2 := key (res.countP (is_leeg c)) (List.countP_le_length (is_leeg c))
  refine ⟨100 * tijd_vol_uren c res / tijd_totaal_uren res,
    100 * tijd_leeg_uren c res / tijd_totaal_uren res,
    by simp [pct_vol, hn], by simp [pct_leeg, hn], ?_, ?_, ?_, ?_⟩
  · exact h1.1
  · exact h1.2
  · exact h2.1
  · exact h2.2

theorem vol_leeg_pct_amended_witness :
    ∃ p q : ℚ, pct_vol cfg0 (run cfg0 [⟨0, 1, 1⟩]) = some p ∧
      pct_leeg cfg0 (run cfg0 [⟨0, 1, 1⟩]) = some q ∧
      0 ≤ p ∧ p ≤ 100 ∧ 0 ≤ q ∧ q ≤ 100 :=
  vol_leeg_pct_amended cfg0 (run cfg0 [⟨0, 1, 1⟩])
    (by simp [run, simulatie])

/-- Every run emits exactly one trace row per bucket, whatever the
configuration and input: the loop performs no validation and never
aborts. -/
theorem simulatie_length (c : Instellingen) :
    ∀ (ks : List Kwartier) (niveau : ℚ),
      (simulatie c niveau ks).length = ks.length := by
  intro ks
  induction ks with
  | nil => intro _; rfl
  | cons k ks ih => intro niveau; simp [simulatie, ih]

/-- C3 counterexample: a raw row whose `vermogen` failed numeric parsing
(NaN after the coercing conversion of line 46, modelled as `none`) is
silently dropped by the NaN-skipping group sum, producing the bucket
`(0, 0)`, and the simulation then runs and emits a trace row — no
validation error is raised and output is produced, contradicting
fail-fast validation. -/
theorem validatie_counterexample :
    kwartierVanRijen 0 [⟨0, true, false, none⟩] = (⟨0, 0, 0⟩ : Kwartier) ∧
    (run cfg0 [kwartierVanRijen 0 [⟨0, true, false, none⟩]]).length = 1 := by
  constructor
  · rfl
  · simp [run, simulatie_length]

/-- C3 amended: the code performs no fail-fast validation at all.  The
configuration is constrained only by the UI widget ranges, a malformed
energy value is coerced to NaN and then treated as absent (0) by the
bucket group sum, negative values pass through unchecked, and the
simulation always runs to completion, emitting one trace row per
bucket. -/
theorem validatie_amended (c : Instellingen) (ks : List Kwartier) :
    (run c ks).length = ks.length ∧
    rijAfname ⟨0, true, false, none⟩ = none ∧
    kwartierVanRijen 0 [⟨0, true, false, none⟩] = (⟨0, 0, 0⟩ : Kwartier) :=
  ⟨simulatie_length c ks _, rfl, rfl⟩
